import Mathlib

/-
Verification development for the tb-tsb-lib search box component
(src/projects/tb-tsb-lib/src/lib/search-box/search-box.component.ts).

The component is embedded as a small-step state machine:
- JavaScript objects flowing through the Angular form control are modelled with an
  explicit store (a list of records indexed by natural-number references), so that
  reference equality, shallow copies and in-place mutation are faithful.
- The RxJS pipeline (debounceTime / distinctUntilChanged / switchMap / catchError /
  subscribe) of ngOnInit is embedded through a generation counter: every value that
  passes distinctUntilChanged switches the inner observable, so a response is applied
  only when its generation equals the current one (switchMap unsubscribes the
  superseded inner observable). catchError at the outer level maps a failure to
  of([]), which emits one empty list and then completes the whole subscription.
- Asynchronous secondary lookups (getValidOccurence) are modelled with a pending
  list; their responses arrive as separate events.
Observable behaviour (event emitter calls, panel actions, dispatched service calls)
is collected as a list of actions per step.
-/

/-- Record model for RepositoryItemModel. Fields are optional to model JS
null/undefined. The validOccurence field holds a reference into the store. -/
structure Rim where
  occurenceId : Option Int := none
  repository : Option String := none
  idNomen : Option Int := none
  idTaxo : Option Int := none
  name : Option String := none
  author : Option String := none
  isSynonym : Option Bool := none
  validOccurence : Option Nat := none
deriving Repr, DecidableEq

/-- An entry of the repositories list (listRepo). -/
structure RepoEntry where
  value : String
  label : String
deriving Repr, DecidableEq

/-- A value held by the input form control: either a typed string or a selected
candidate object (a reference into the store). JS strict equality compares strings
by value and objects by reference, which the derived equality captures. -/
inductive JSVal where
  | str (s : String)
  | obj (ref : Nat)
deriving Repr, DecidableEq

/-- Observable actions of the component: output-emitter emissions, autocomplete
panel actions and calls dispatched to the repository service. -/
inductive Act where
  | newData (v : Option Nat)
  | updatedData (r : Nat)
  | httpError
  | openPanel
  | closePanel
  | searchCall (repo : String) (text : String)
  | fetchValidOcc (repo : Option String) (idNomen : Option Int) (idTaxo : Option Int)
  | allResults (rs : List Nat)
deriving Repr, DecidableEq

/-- Component state of SearchBoxComponent, together with the state of the RxJS
pipeline of ngOnInit (distinctUntilChanged memory, switchMap generation, stream
completion) and the store of JS record objects. -/
structure CState where
  store : List Rim := []
  autoComplete : Bool := true
  autoResetWhenSelected : Bool := true
  autoSelectValueIfOnlyOneResult : Bool := false
  allowFreeValueIfNoResults : Bool := true
  restoreRepositoryValueAfterEditing : Bool := false
  allowEmptyRepository : Bool := true
  listRepo : List RepoEntry := []
  currentRepository : String := ""
  formRepoValue : String := ""
  lastUsedRepositoryValue : String := ""
  placeholder : String := ""
  lastPlaceholderValue : String := ""
  noOneRepositoryError : Bool := false
  dataFromRepo : List Nat := []
  inputValue : JSVal := JSVal.str ""
  lastDistinctVal : Option JSVal := none
  isSearching : Bool := false
  isLoading : Bool := false
  isEditingData : Bool := false
  editingOccurenceId : Option Int := none
  panelOpen : Bool := false
  gen : Nat := 0
  inflight : Bool := false
  completed : Bool := false
  pendingValid : List (Nat × Bool) := []
deriving Repr, DecidableEq

/-- Model of value.replace with a global space pattern: removes every U+0020
space character and nothing else (tabs and other whitespace are kept). -/
def jsReplaceSpaces (t : String) : String :=
  String.mk (t.data.filter (fun c => ¬ c = ' '))

/-- JS reference inequality of a value against a freshly created empty array
literal. The source guard at line 217 is written with a strict inequality against
a new empty array literal; the literal allocates a fresh array object, so the
comparison is by reference and is always true, even when results is empty. -/
def jsNotRefEqEmptyArrayLiteral (_ : List Nat) : Bool := true

/-- Model of setRepository (lines 469-499), written with explicit fuel because the
source recursion has no termination bound: linear search over listRepo; every
matching entry sets currentRepository and the form control value; on a miss,
recurse with the identifier otherunknown when free entry is allowed, else with the
first catalog entry, and with an empty catalog set the no-repository error flag.
A none result means the fuel ran out, i.e. the source recursion does not reach a
base case within that many calls. -/
def setRepositoryFuel : Nat → String → CState → Option CState
  | 0, _, _ => none
  | fuel + 1, repository, s =>
    let founded := s.listRepo.any (fun repo => repo.value = repository)
    if founded then
      some {s with currentRepository := repository, formRepoValue := repository}
    else if s.allowEmptyRepository then
      setRepositoryFuel fuel "otherunknown" s
    else
      match s.listRepo with
      | [] => some {s with noOneRepositoryError := true}
      | e :: _ => setRepositoryFuel fuel e.value s

/-- Model of resetInput (lines 459-464): a no-op while editing; otherwise resets
the input control to the empty string without emitting a valueChanges event (so
the distinctUntilChanged memory is untouched). -/
def resetInput (s : CState) : CState :=
  if s.isEditingData then s else {s with inputValue := JSVal.str ""}

/-- Model of stopEditingTaxo (lines 530-539): clears the editing flags, restores
the placeholder, optionally restores the previous repository, closes the panel and
clears the candidate buffer. The repository restore uses the fuel-based
setRepository; when the fuel runs out (a configuration on which the source would
recurse forever) the state is left unchanged. -/
def stopEditingTaxo (s : CState) : CState × List Act :=
  let s1 := {s with isEditingData := false, editingOccurenceId := none,
                    placeholder := s.lastPlaceholderValue}
  let s2 :=
    if s1.restoreRepositoryValueAfterEditing then
      match setRepositoryFuel (s1.listRepo.length + 2) s1.lastUsedRepositoryValue s1 with
      | some s3 => s3
      | none => s1
    else s1
  ({s2 with panelOpen := false, dataFromRepo := []}, [Act.closePanel])

/-- Model of checkAndEmitNewData (lines 244-259). For a synonym without a valid
occurrence, dispatch the asynchronous getValidOccurence call and record the
pending subscription; for a synonym with a valid occurrence, emit directly; for a
non-synonym, attach a shallow self-copy (Object.assign of an empty literal and the
record) as validOccurence and emit; otherwise (isSynonym undefined) do nothing. -/
def checkAndEmitNewData (s : CState) (ref : Nat) : CState × List Act :=
  let data := s.store.getD ref {}
  if data.isSynonym = some true ∧ data.validOccurence = none then
    ({s with pendingValid := s.pendingValid ++ [(ref, false)]},
     [Act.fetchValidOcc data.repository data.idNomen data.idTaxo])
  else if data.isSynonym = some true ∧ ¬ data.validOccurence = none then
    (s, [Act.newData (some ref)])
  else if data.isSynonym = some false then
    let copyRef := s.store.length
    let store2 := (s.store ++ [data]).set ref {data with validOccurence := some copyRef}
    ({s with store := store2}, [Act.newData (some ref)])
  else (s, [])

/-- Model of checkAndEmitUpdatedData (lines 261-273). Like checkAndEmitNewData but
a synonym always goes through the asynchronous getValidOccurence call (no check
whether validOccurence is already present) and emissions go to updatedData. -/
def checkAndEmitUpdatedData (s : CState) (ref : Nat) : CState × List Act :=
  let data := s.store.getD ref {}
  if data.isSynonym = some true then
    ({s with pendingValid := s.pendingValid ++ [(ref, true)]},
     [Act.fetchValidOcc data.repository data.idNomen data.idTaxo])
  else if data.isSynonym = some false then
    let copyRef := s.store.length
    let store2 := (s.store ++ [data]).set ref {data with validOccurence := some copyRef}
    ({s with store := store2}, [Act.updatedData ref])
  else (s, [])

/-- Model of the selected-object branch of the switchMap body (lines 188-207):
stamp the current repository onto the candidate; when not editing, clear the
buffer and finalize through checkAndEmitNewData; when editing, stamp the editing
occurrence id, clear the buffer, finalize through checkAndEmitUpdatedData and then
stop the edit session; afterwards clear the buffer and the busy flags and, when
autoResetWhenSelected is set, reset the input. -/
def handleSelectedObject (s : CState) (ref : Nat) : CState × List Act :=
  let data := s.store.getD ref {}
  let s1 := {s with store := s.store.set ref {data with repository := some s.currentRepository}}
  let (s2, a2) :=
    if s1.isEditingData then
      let d1 := s1.store.getD ref {}
      let s1b := {s1 with
        store := s1.store.set ref {d1 with occurenceId := s1.editingOccurenceId},
        dataFromRepo := []}
      let (sa, aa) := checkAndEmitUpdatedData s1b ref
      let (sb, ab) := stopEditingTaxo sa
      (sb, aa ++ ab)
    else
      checkAndEmitNewData {s1 with dataFromRepo := []} ref
  let s3 := {s2 with dataFromRepo := [], isLoading := false, isSearching := false}
  let s4 := if s3.autoResetWhenSelected then resetInput s3 else s3
  (s4, a2)

/-- Model of the subscribe next-handler (lines 216-238): the guard against the
empty array literal (always true in JS), force-open the panel, store the results,
clear the busy flags; auto-select a single result (as an update plus session stop
while editing, as new data otherwise); with several results while editing open the
panel if it is not already open; without autocomplete, clear the buffer and
surface the results wholesale. -/
def onResults (s : CState) (results : List Nat) : CState × List Act :=
  if jsNotRefEqEmptyArrayLiteral results then
    let s1 := {s with panelOpen := true, dataFromRepo := results,
                      isLoading := false, isSearching := false}
    let (s2, a2) :=
      if s1.autoComplete = true ∧ s1.autoSelectValueIfOnlyOneResult = true
         ∧ s1.dataFromRepo.length = 1 then
        if s1.isEditingData then
          let (sa, aa) := checkAndEmitUpdatedData s1 (s1.dataFromRepo.getD 0 0)
          let (sb, ab) := stopEditingTaxo sa
          (sb, aa ++ ab)
        else
          checkAndEmitNewData s1 (s1.dataFromRepo.getD 0 0)
      else if s1.autoComplete = true ∧ 1 < s1.dataFromRepo.length
              ∧ s1.isEditingData = true then
        if s1.panelOpen = false then ({s1 with panelOpen := true}, [Act.openPanel])
        else (s1, [])
      else (s1, [])
    let (s3, a3) :=
      if s2.autoComplete = false then
        ({s2 with dataFromRepo := []}, [Act.allResults results])
      else (s2, [])
    (s3, [Act.openPanel] ++ a2 ++ a3)
  else (s, [])

/-- Model of keyDownEnter (lines 287-332): when the free-text commit condition
holds, an object value returns immediately; a spaces-only string emits a null
newData; otherwise, while editing, an update record carrying the editing
occurrence id and the sentinel repository is emitted and the session stopped;
otherwise a fresh record with the sentinel repository, the typed name, isSynonym
false and a null validOccurence is emitted; finally the input is optionally
reset. -/
def keyDownEnter (s : CState) : CState × List Act :=
  if (s.allowEmptyRepository = true ∧ s.currentRepository = "otherunknown")
     ∨ (¬ s.currentRepository = "otherunknown" ∧ s.allowFreeValueIfNoResults = true
        ∧ s.dataFromRepo = []) then
    match s.inputValue with
    | JSVal.obj _ => (s, [])
    | JSVal.str t =>
      if jsReplaceSpaces t = "" then (s, [Act.newData none])
      else if s.isEditingData then
        let upd : Rim := { occurenceId := s.editingOccurenceId,
                           repository := some "otherunknown",
                           idTaxo := none, idNomen := none,
                           name := some t, author := none,
                           isSynonym := none, validOccurence := none }
        let updRef := s.store.length
        let s1 := {s with store := s.store ++ [upd], dataFromRepo := []}
        let (s2, a2) := stopEditingTaxo s1
        let s3 := if s2.autoResetWhenSelected then resetInput s2 else s2
        (s3, [Act.updatedData updRef] ++ a2)
      else
        let rim : Rim := { occurenceId := none, repository := some "otherunknown",
                           idNomen := none, idTaxo := none,
                           name := some t, author := none,
                           isSynonym := some false, validOccurence := none }
        let rimRef := s.store.length
        let s1 := {s with store := s.store ++ [rim], dataFromRepo := []}
        let s2 := if s1.autoResetWhenSelected then resetInput s1 else s1
        (s2, [Act.newData (some rimRef)])
  else (s, [])

/-- Response to a pending getValidOccurence subscription (lines 247-252 and
263-268): standardize (the standardized record arrives with the event), stamp the
originating repository, attach it as validOccurence and emit the record on the
emitter recorded for this pending subscription. -/
def stepValidOccResp (s : CState) (i : Nat) (std : Rim) : CState × List Act :=
  match s.pendingValid.get? i with
  | none => (s, [])
  | some p =>
    let ref := p.1
    let data := s.store.getD ref {}
    let validOcc := {std with repository := data.repository}
    let vRef := s.store.length
    let store2 := (s.store ++ [validOcc]).set ref {data with validOccurence := some vRef}
    ({s with store := store2, pendingValid := s.pendingValid.eraseIdx i},
     [if p.2 then Act.updatedData ref else Act.newData (some ref)])

/-- Arrival of a primary lookup response. switchMap unsubscribes a superseded
inner observable, so the response is delivered to the subscriber only when the
stream is not completed, a request is in flight and the generation matches the
current one; the response records are then allocated into the store and handed to
the subscribe next-handler. -/
def stepLookupResponse (s : CState) (g : Nat) (results : List Rim) : CState × List Act :=
  if s.completed = true ∨ s.inflight = false ∨ ¬ g = s.gen then (s, [])
  else
    let refs := (List.range results.length).map (fun i => i + s.store.length)
    let s1 := {s with store := s.store ++ results, inflight := false}
    onResults s1 refs

/-- Arrival of a primary lookup failure. A failure of a superseded request is
dropped with its unsubscribed inner observable. A failure of the current request
propagates through switchMap to catchError (line 215), which replaces the stream
with of([]): the subscriber receives one empty emission and the stream then
completes, so the subscription of ngOnInit processes nothing further. The
subscribe error handler (lines 239-241) that would emit httpError is unreachable:
catchError has already mapped the failure to a normal emission. -/
def stepLookupFail (s : CState) (g : Nat) : CState × List Act :=
  if s.completed = true ∨ s.inflight = false ∨ ¬ g = s.gen then (s, [])
  else
    let (s1, a1) := onResults {s with inflight := false} []
    ({s1 with completed := true}, a1)

/-- Processing of an input-control value change. The first watcher (lines
161-163) sets isSearching on every change. The second watcher (lines 166-241)
runs only while its subscription is not completed: distinctUntilChanged drops a
value strictly equal (JS ===) to the previous one; otherwise switchMap switches
to a new inner observable (incrementing the generation): a typed string for a
structured repository is either short-circuited to of([]) when spaces-only or
dispatched as a repository search; a selected object is finalized synchronously
and followed by of([]); anything else becomes of([]). An of([]) emission reaches
the subscriber synchronously. -/
def stepInput (s : CState) (v : JSVal) : CState × List Act :=
  let s0 := {s with inputValue := v, isSearching := true}
  if s0.completed then (s0, [])
  else if s0.lastDistinctVal = some v then (s0, [])
  else
    let s1 := {s0 with lastDistinctVal := some v}
    match v with
    | JSVal.str t =>
      if ¬ s1.currentRepository = "otherunknown" then
        if jsReplaceSpaces t = "" then
          onResults {s1 with dataFromRepo := [], gen := s1.gen + 1, inflight := false} []
        else
          ({s1 with isLoading := true, gen := s1.gen + 1, inflight := true},
           [Act.searchCall s1.currentRepository t])
      else
        onResults {s1 with gen := s1.gen + 1, inflight := false} []
    | JSVal.obj ref =>
      let (s2, a2) := handleSelectedObject {s1 with gen := s1.gen + 1, inflight := false} ref
      let (s3, a3) := onResults s2 []
      (s3, a2 ++ a3)

/-- External events driving the component. -/
inductive Ev where
  | inputSet (v : JSVal)
  | lookupResponse (g : Nat) (results : List Rim)
  | lookupFail (g : Nat)
  | validOccResp (i : Nat) (std : Rim)
  | keyEnter
deriving Repr, DecidableEq

/-- One step of the component: dispatch an event to its handler. -/
def step (s : CState) (e : Ev) : CState × List Act :=
  match e with
  | Ev.inputSet v => stepInput s v
  | Ev.lookupResponse g results => stepLookupResponse s g results
  | Ev.lookupFail g => stepLookupFail s g
  | Ev.validOccResp i std => stepValidOccResp s i std
  | Ev.keyEnter => keyDownEnter s

/-- Run a sequence of events, accumulating the emitted actions in order. -/
def run (s : CState) (es : List Ev) : CState × List Act :=
  es.foldl (fun p e => ((step p.1 e).1, p.2 ++ (step p.1 e).2)) (s, [])

/-- Discriminator for search dispatch actions. -/
def Act.isSearchCall : Act → Bool
  | Act.searchCall _ _ => true
  | _ => false

/-- A non-synonym candidate record as the repository service returns it (no
repository stamp yet). -/
def rNonSyn : Rim := { name := some "Rosa", author := some "L.", isSynonym := some false }

/-- A synonym candidate record without a pre-attached valid occurrence. -/
def rSyn : Rim :=
  { name := some "Rosa sub", idNomen := some 7, idTaxo := some 8, isSynonym := some true }

/-- A standardized valid occurrence as delivered to a getValidOccurence
subscription. -/
def stdValid : Rim := { name := some "Rosa valid", isSynonym := some false }

/-- Idle component on a structured repository. -/
def sPlain : CState := { currentRepository := "bdtfx" }

/-- Component awaiting the response of the lookup of generation 1. -/
def sAwait : CState :=
  { currentRepository := "bdtfx", gen := 1, inflight := true,
    isLoading := true, isSearching := true }

/-- Component in an active edit session for occurrence oid, with the candidate d
selectable at store reference 0. -/
def editState (d : Rim) (oid : Int) : CState :=
  { store := [d], isEditingData := true, editingOccurenceId := some oid,
    currentRepository := "bdtfx" }

/-- Component awaiting the response of lookup generation 1 with
auto-select-single-result enabled. -/
def autoState : CState :=
  { currentRepository := "bdtfx", autoSelectValueIfOnlyOneResult := true, gen := 1,
    inflight := true, isLoading := true, isSearching := true,
    inputValue := JSVal.str "rosa", lastDistinctVal := some (JSVal.str "rosa") }

/-- Like autoState but during an active edit session for occurrence oid. -/
def autoEditState (oid : Int) : CState :=
  { autoState with isEditingData := true, editingOccurenceId := some oid }

/-- Component with a single stored record, used for the synonym-resolution
invariants. -/
def singleStore (d : Rim) : CState := { currentRepository := "bdtfx", store := [d] }

/-- Component on the free-entry sentinel repository with typed free text. -/
def sFree : CState :=
  { currentRepository := "otherunknown", inputValue := JSVal.str "Quercus robur" }

/-- State with a selected candidate object in the input control while the
free-text commit condition holds through the sentinel repository. -/
def sObjInput : CState :=
  { currentRepository := "otherunknown", inputValue := JSVal.obj 0, store := [rNonSyn] }

/-- Catalog state on which the source setRepository recursion never terminates:
free entry is allowed but the catalog does not contain otherunknown. -/
def emptyCatalogFree : CState := { allowEmptyRepository := true, listRepo := [] }

/-- Empty catalog with free entry disallowed: the terminal error-flag case. -/
def emptyCatalogNoFree : CState := { allowEmptyRepository := false, listRepo := [] }

/-- The fuel-based setRepository reaches no base case for any amount of fuel,
i.e. the source recursion runs forever on this input. -/
def setRepoDiverges (repository : String) (s : CState) : Prop :=
  ∀ fuel, setRepositoryFuel fuel repository s = none

/-- Event trace for the lookup-failure scenario: a search is dispatched, the
lookup fails, then the user types again. -/
def c3Trace : List Ev :=
  [Ev.inputSet (JSVal.str "rosa"), Ev.lookupFail 1, Ev.inputSet (JSVal.str "oak")]

/-- Event trace committing the same selected candidate object twice in
succession. -/
def c7Trace : List Ev := [Ev.inputSet (JSVal.obj 0), Ev.inputSet (JSVal.obj 0)]

/-- Component state holding the candidate rNonSyn, ready for selection. -/
def s7 : CState := { currentRepository := "bdtfx", store := [rNonSyn] }

/-- State whose distinctUntilChanged memory already holds the selected object. -/
def s7dup : CState := { sPlain with lastDistinctVal := some (JSVal.obj 0) }

/-- The state the subscribe handler has built when a single-candidate response to
lookup generation 1 has just been buffered in autoState: the record allocated at
reference 0, the panel forced open, the buffer holding the single reference and
the busy flags cleared, right before the auto-select branch runs. -/
def autoBuffered (r : Rim) : CState :=
  { autoState with
      store := [r], inflight := false, panelOpen := true, dataFromRepo := [0],
      isLoading := false, isSearching := false }

/-- Like autoBuffered but during an active edit session for occurrence oid. -/
def autoEditBuffered (oid : Int) (e : Rim) : CState :=
  { autoEditState oid with
      store := [e], inflight := false, panelOpen := true, dataFromRepo := [0],
      isLoading := false, isSearching := false }

/-- C1: supersession law of the primary lookup pipeline. A response whose
generation differs from the generation of the most recently issued lookup (its
inner observable was unsubscribed when the newer lookup switched the pipeline) is
discarded: it changes no component state and emits nothing, so only the response
of the most recently issued lookup is ever applied to dataFromRepo and a stale
response is never merged. -/
theorem C1_staleLookupResponseDiscarded (s : CState) (g : Nat) (results : List Rim)
    (h : ¬ g = s.gen) :
    step s (Ev.lookupResponse g results) = (s, []) := by
  simp [step, stepLookupResponse, h]

/-- C1 witness: a concrete response of lookup generation 1 arriving while the
current lookup is generation 2 is dropped without any state change. -/
theorem C1_staleLookupResponseDiscarded_witness :
    step { autoState with gen := 2 } (Ev.lookupResponse 1 [rNonSyn])
      = ({ autoState with gen := 2 }, []) :=
  C1_staleLookupResponseDiscarded { autoState with gen := 2 } 1 [rNonSyn] (by decide)

/-- C2 (code bug evidence): a primary lookup response with an empty result set
still force-opens the suggestion panel: the guard of the subscribe handler
compares the results array against a fresh empty array literal by reference, which
is always true, so the openPanel action fires even for an empty result set. -/
theorem C2_emptyResponseStillOpensPanel :
    (step sAwait (Ev.lookupResponse 1 [])).2 = [Act.openPanel]
    ∧ (step sAwait (Ev.lookupResponse 1 [])).1.panelOpen = true := by
  exact ⟨rfl, rfl⟩

/-- C3 (code bug evidence): a failure of the current primary lookup is mapped by
catchError to a single empty emission after which the outer subscription
completes: over the whole trace the only actions are the initial search dispatch
and the panel action of the empty recovery emission; httpError is never emitted,
the later input change dispatches no search, and the stream is completed. -/
theorem C3_lookupFailureStopsPipeline :
    (run sPlain c3Trace).2 = [Act.searchCall "bdtfx" "rosa", Act.openPanel]
    ∧ (run sPlain c3Trace).1.completed = true
    ∧ (run sPlain c3Trace).1.dataFromRepo = [] := by
  exact ⟨rfl, rfl, rfl⟩

/-- C4 counterexample: finalizing a synonym candidate during an active edit
session is stop-then-emit, not emit-then-stop: the selection step stops the
session (isEditingData is already false and closePanel has fired) while emitting
no updatedData action, and the updatedData emission only happens in the later
step that delivers the asynchronous valid-form fetch response. -/
theorem C4_counterexample :
    (step (editState rSyn 42) (Ev.inputSet (JSVal.obj 0))).2
      = [Act.fetchValidOcc (some "bdtfx") (some 7) (some 8), Act.closePanel, Act.openPanel]
    ∧ (step (editState rSyn 42) (Ev.inputSet (JSVal.obj 0))).1.isEditingData = false
    ∧ (stepValidOccResp (step (editState rSyn 42) (Ev.inputSet (JSVal.obj 0))).1 0 stdValid).2
      = [Act.updatedData 0] := by
  exact ⟨rfl, rfl, rfl⟩

/-- C4 amended: finalization during an edit session always stamps the editing
occurrence id onto the outgoing record; for a non-synonym candidate the
updatedData emission precedes the session reset (the updatedData action precedes
the closePanel action of stop), while for a synonym candidate the session is
reset first and the emission fires only when the valid-form fetch completes. -/
theorem C4_amended (d e : Rim) (oid : Int) (std : Rim)
    (hd : d.isSynonym = some false) (he : e.isSynonym = some true) :
    ((step (editState d oid) (Ev.inputSet (JSVal.obj 0))).2
        = [Act.updatedData 0, Act.closePanel, Act.openPanel]
      ∧ ((step (editState d oid) (Ev.inputSet (JSVal.obj 0))).1.store.getD 0 {}).occurenceId
        = some oid)
    ∧ ((step (editState e oid) (Ev.inputSet (JSVal.obj 0))).2
        = [Act.fetchValidOcc (some "bdtfx") e.idNomen e.idTaxo, Act.closePanel, Act.openPanel]
      ∧ (step (editState e oid) (Ev.inputSet (JSVal.obj 0))).1.isEditingData = false
      ∧ ((step (editState e oid) (Ev.inputSet (JSVal.obj 0))).1.store.getD 0 {}).occurenceId
        = some oid
      ∧ (stepValidOccResp (step (editState e oid) (Ev.inputSet (JSVal.obj 0))).1 0 std).2
        = [Act.updatedData 0]) := by
  simp [step, stepInput, editState, handleSelectedObject, checkAndEmitUpdatedData,
        stopEditingTaxo, resetInput, onResults, stepValidOccResp,
        jsNotRefEqEmptyArrayLiteral, hd, he, List.getD]

/-- C4 witness: for the concrete non-synonym candidate rNonSyn finalized during
the edit of occurrence 5, the updatedData emission precedes the session stop. -/
theorem C4_amended_witness :
    (step (editState rNonSyn 5) (Ev.inputSet (JSVal.obj 0))).2
      = [Act.updatedData 0, Act.closePanel, Act.openPanel] :=
  (C4_amended rNonSyn rSyn 5 stdValid rfl rfl).1.1

/-- C5 counterexample: with auto-select-single-result enabled, the single
candidate of a response is not processed as a user-selected candidate would be:
the auto-select path leaves the candidate without a repository stamp, keeps it in
the candidate buffer and leaves the input untouched, whereas the user-selection
treatment of the very same candidate stamps the current repository, clears the
buffer and resets the input. -/
theorem C5_counterexample :
    ((step autoState (Ev.lookupResponse 1 [rNonSyn])).1.store.getD 0 {}).repository = none
    ∧ (step autoState (Ev.lookupResponse 1 [rNonSyn])).1.dataFromRepo = [0]
    ∧ (step autoState (Ev.lookupResponse 1 [rNonSyn])).1.inputValue = JSVal.str "rosa"
    ∧ ((handleSelectedObject { autoState with store := [rNonSyn], inflight := false } 0).1.store.getD 0 {}).repository
        = some "bdtfx"
    ∧ (handleSelectedObject { autoState with store := [rNonSyn], inflight := false } 0).1.dataFromRepo = []
    ∧ (handleSelectedObject { autoState with store := [rNonSyn], inflight := false } 0).1.inputValue
        = JSVal.str "" := by
  exact ⟨rfl, rfl, rfl, rfl, rfl, rfl⟩

/-- C5 amended: auto-select of a single result routes the candidate through the
same finalization routines as a user selection (checkAndEmitNewData, or
checkAndEmitUpdatedData followed by the session stop while editing), uniformly
over every candidate record, but without the selection preprocessing. The first
conjunct of each block states the routing as an equality: the step is exactly the
forced panel opening followed by the finalization routine applied to the buffered
candidate (followed by the session stop while editing); the remaining conjuncts
state the missing preprocessing uniformly: the candidate keeps the repository the
service returned (no stamp with the current repository), keeps the occurrence id
it arrived with (no stamp with the editing occurrence id), stays in the candidate
buffer in the non-editing case, and the input is never reset in either mode. -/
theorem C5_amended (r e : Rim) (oid : Int) :
    (step autoState (Ev.lookupResponse 1 [r])
        = ((checkAndEmitNewData (autoBuffered r) 0).1,
           Act.openPanel :: (checkAndEmitNewData (autoBuffered r) 0).2)
      ∧ ((step autoState (Ev.lookupResponse 1 [r])).1.store.getD 0 {}).repository = r.repository
      ∧ ((step autoState (Ev.lookupResponse 1 [r])).1.store.getD 0 {}).occurenceId = r.occurenceId
      ∧ (step autoState (Ev.lookupResponse 1 [r])).1.dataFromRepo = [0]
      ∧ (step autoState (Ev.lookupResponse 1 [r])).1.inputValue = autoState.inputValue)
    ∧ (step (autoEditState oid) (Ev.lookupResponse 1 [e])
        = ((stopEditingTaxo (checkAndEmitUpdatedData (autoEditBuffered oid e) 0).1).1,
           Act.openPanel :: ((checkAndEmitUpdatedData (autoEditBuffered oid e) 0).2
             ++ (stopEditingTaxo (checkAndEmitUpdatedData (autoEditBuffered oid e) 0).1).2))
      ∧ ((step (autoEditState oid) (Ev.lookupResponse 1 [e])).1.store.getD 0 {}).occurenceId
          = e.occurenceId
      ∧ ((step (autoEditState oid) (Ev.lookupResponse 1 [e])).1.store.getD 0 {}).repository
          = e.repository
      ∧ (step (autoEditState oid) (Ev.lookupResponse 1 [e])).1.inputValue
          = (autoEditState oid).inputValue) := by
  constructor
  · rcases hsyn : r.isSynonym with _ | b
    · refine ⟨?_, ?_, ?_, ?_, ?_⟩ <;>
        simp [step, stepLookupResponse, onResults, autoState, autoBuffered,
              checkAndEmitNewData, jsNotRefEqEmptyArrayLiteral, hsyn, List.getD,
              show List.range 1 = [0] from rfl]
    · cases b
      · refine ⟨?_, ?_, ?_, ?_, ?_⟩ <;>
          simp [step, stepLookupResponse, onResults, autoState, autoBuffered,
                checkAndEmitNewData, jsNotRefEqEmptyArrayLiteral, hsyn, List.getD,
                show List.range 1 = [0] from rfl]
      · rcases hvo : r.validOccurence with _ | v
        · refine ⟨?_, ?_, ?_, ?_, ?_⟩ <;>
            simp [step, stepLookupResponse, onResults, autoState, autoBuffered,
                  checkAndEmitNewData, jsNotRefEqEmptyArrayLiteral, hsyn, hvo, List.getD,
                  show List.range 1 = [0] from rfl]
        · refine ⟨?_, ?_, ?_, ?_, ?_⟩ <;>
            simp [step, stepLookupResponse, onResults, autoState, autoBuffered,
                  checkAndEmitNewData, jsNotRefEqEmptyArrayLiteral, hsyn, hvo, List.getD,
                  show List.range 1 = [0] from rfl]
  · rcases hsyn : e.isSynonym with _ | b
    · refine ⟨?_, ?_, ?_, ?_⟩ <;>
        simp [step, stepLookupResponse, onResults, autoState, autoEditState, autoEditBuffered,
              checkAndEmitUpdatedData, stopEditingTaxo, jsNotRefEqEmptyArrayLiteral, hsyn,
              List.getD, show List.range 1 = [0] from rfl]
    · cases b
      · refine ⟨?_, ?_, ?_, ?_⟩ <;>
          simp [step, stepLookupResponse, onResults, autoState, autoEditState, autoEditBuffered,
                checkAndEmitUpdatedData, stopEditingTaxo, jsNotRefEqEmptyArrayLiteral, hsyn,
                List.getD, show List.range 1 = [0] from rfl]
      · refine ⟨?_, ?_, ?_, ?_⟩ <;>
          simp [step, stepLookupResponse, onResults, autoState, autoEditState, autoEditBuffered,
                checkAndEmitUpdatedData, stopEditingTaxo, jsNotRefEqEmptyArrayLiteral, hsyn,
                List.getD, show List.range 1 = [0] from rfl]

/-- C5 witness: for the concrete synonym candidate rSyn, the auto-select step is
exactly the forced panel opening followed by checkAndEmitNewData on the buffered
candidate, exercising the routing equality on a synonym. -/
theorem C5_amended_witness :
    step autoState (Ev.lookupResponse 1 [rSyn])
      = ((checkAndEmitNewData (autoBuffered rSyn) 0).1,
         Act.openPanel :: (checkAndEmitNewData (autoBuffered rSyn) 0).2) :=
  (C5_amended rSyn rSyn 5).1.1

/-- C6 counterexample: the free-text commit path emits a final record through
newData whose isSynonym is false and whose validOccurence is null, not a
structural self-copy, so the emitted-record invariant does not cover the
free-text commit path. -/
theorem C6_counterexample :
    (step sFree Ev.keyEnter).2 = [Act.newData (some 0)]
    ∧ ((step sFree Ev.keyEnter).1.store.getD 0 {}).isSynonym = some false
    ∧ ((step sFree Ev.keyEnter).1.store.getD 0 {}).validOccurence = none := by
  exact ⟨rfl, rfl, rfl⟩

/-- C6 amended: records emitted through checkAndEmitNewData AND
checkAndEmitUpdatedData satisfy the invariant: a non-synonym record is emitted
(on newData and on updatedData respectively) carrying a validOccurence that is a
structural self-copy living at a distinct store reference, and overwriting the
copy leaves the emitted record unchanged; a synonym with a valid occurrence
already attached is emitted unchanged by the newData routine with its non-null
validOccurence, while the updatedData routine always defers to the fetch; a
synonym without one is not emitted synchronously by either routine, and its
deferred emission (newData and updatedData pending flag alike) carries a freshly
attached non-null validOccurence. The free-text commit path (see the
counterexample) instead emits records with a null validOccurence. -/
theorem C6_amended (d f g x std : Rim) (v : Nat)
    (hd : d.isSynonym = some false)
    (hf : f.isSynonym = some true) (hfv : f.validOccurence = some v)
    (hg : g.isSynonym = some true) (hgv : g.validOccurence = none) :
    ((checkAndEmitNewData (singleStore d) 0).2 = [Act.newData (some 0)]
      ∧ (checkAndEmitNewData (singleStore d) 0).1.store.getD 0 {}
          = {d with validOccurence := some 1}
      ∧ (checkAndEmitNewData (singleStore d) 0).1.store.getD 1 {} = d
      ∧ (((checkAndEmitNewData (singleStore d) 0).1.store.set 1 x).getD 0 {})
          = {d with validOccurence := some 1})
    ∧ checkAndEmitNewData (singleStore f) 0 = (singleStore f, [Act.newData (some 0)])
    ∧ (checkAndEmitNewData (singleStore g) 0).2
        = [Act.fetchValidOcc g.repository g.idNomen g.idTaxo]
    ∧ ((stepValidOccResp {singleStore g with pendingValid := [(0, false)]} 0 std).2
        = [Act.newData (some 0)]
      ∧ ((stepValidOccResp {singleStore g with pendingValid := [(0, false)]} 0 std).1.store.getD 0 {}).validOccurence
        = some 1)
    ∧ ((checkAndEmitUpdatedData (singleStore d) 0).2 = [Act.updatedData 0]
      ∧ (checkAndEmitUpdatedData (singleStore d) 0).1.store.getD 0 {}
          = {d with validOccurence := some 1}
      ∧ (checkAndEmitUpdatedData (singleStore d) 0).1.store.getD 1 {} = d
      ∧ (((checkAndEmitUpdatedData (singleStore d) 0).1.store.set 1 x).getD 0 {})
          = {d with validOccurence := some 1})
    ∧ (checkAndEmitUpdatedData (singleStore f) 0).2
        = [Act.fetchValidOcc f.repository f.idNomen f.idTaxo]
    ∧ (checkAndEmitUpdatedData (singleStore g) 0).2
        = [Act.fetchValidOcc g.repository g.idNomen g.idTaxo]
    ∧ ((stepValidOccResp {singleStore g with pendingValid := [(0, true)]} 0 std).2
        = [Act.updatedData 0]
      ∧ ((stepValidOccResp {singleStore g with pendingValid := [(0, true)]} 0 std).1.store.getD 0 {}).validOccurence
        = some 1) := by
  simp [checkAndEmitNewData, checkAndEmitUpdatedData, singleStore, stepValidOccResp,
        hd, hf, hfv, hg, hgv, List.getD]

/-- C6 witness: the concrete non-synonym candidate rNonSyn is emitted by both
routines with a self-copy attached: the newData emission fires with the record at
reference 0 pointing to the copy at reference 1, and the updatedData routine
emits the same candidate as well. -/
theorem C6_amended_witness :
    ((checkAndEmitNewData (singleStore rNonSyn) 0).2 = [Act.newData (some 0)]
      ∧ (checkAndEmitNewData (singleStore rNonSyn) 0).1.store.getD 0 {}
          = {rNonSyn with validOccurence := some 1})
    ∧ (checkAndEmitUpdatedData (singleStore rNonSyn) 0).2 = [Act.updatedData 0] := by
  obtain ⟨hA, hB, hC, hD, hE, hF, hG, hH⟩ :=
    C6_amended rNonSyn {rSyn with validOccurence := some 1} rSyn {} stdValid 1
      rfl rfl rfl rfl rfl
  exact ⟨⟨hA.1, hA.2.1⟩, hE.1⟩

/-- C7 counterexample: committing the same selected candidate object twice in
succession without intervening edits yields exactly one newData emission, not
two: the whole two-commit trace emits a single newData action, because the second
value change carries the same object reference and distinctUntilChanged drops it
(the auto-reset of the input after the first commit emits no valueChanges event,
so the comparison still sees the object). -/
theorem C7_counterexample :
    (run s7 c7Trace).2 = [Act.newData (some 0), Act.openPanel] := by
  exact rfl

/-- C7 amended: a value change carrying a value strictly equal (JS ===, i.e. the
same object reference) to the previously processed one is deduplicated by
distinctUntilChanged: apart from the first watcher setting isSearching and the
form control holding the value, nothing happens and nothing is emitted, so the
second commit of the same candidate object produces no second emission. -/
theorem C7_amended (s : CState) (v : JSVal) (h : s.lastDistinctVal = some v) :
    step s (Ev.inputSet v) = ({s with inputValue := v, isSearching := true}, []) := by
  simp [step, stepInput, h]

/-- C7 witness: re-sending the already-selected object reference 0 is dropped. -/
theorem C7_amended_witness :
    step s7dup (Ev.inputSet (JSVal.obj 0))
      = ({s7dup with inputValue := JSVal.obj 0, isSearching := true}, []) :=
  C7_amended s7dup (JSVal.obj 0) rfl

/-- Helper: when the searched repository occurs in the catalog, setRepository
succeeds in one call with the repository stamped onto the state. -/
theorem setRepositoryFuel_found (fuel : Nat) (repository : String) (s : CState)
    (h : s.listRepo.any (fun e => e.value = repository) = true) :
    setRepositoryFuel (fuel + 1) repository s
      = some {s with currentRepository := repository, formRepoValue := repository} := by
  simp [setRepositoryFuel, h]

/-- C8 counterexample: with free entry allowed and a catalog that does not
contain otherunknown (here the empty catalog), setRepository does not terminate
for any amount of fuel: the miss branch keeps recursing with otherunknown and
never reaches the error-flag case, which the source guards by free entry being
disallowed. -/
theorem C8_counterexample : setRepoDiverges "bdtfx" emptyCatalogFree := by
  have h : ∀ fuel repository, setRepositoryFuel fuel repository emptyCatalogFree = none := by
    intro fuel
    induction fuel with
    | zero => intro repository; rfl
    | succ n ih =>
      intro repository
      simp [setRepositoryFuel, emptyCatalogFree]
      exact ih "otherunknown"
  intro fuel
  exact h fuel "bdtfx"

/-- C8 amended: setRepository terminates (within three calls) for every
repository id whenever free entry is disallowed or the catalog contains
otherunknown: a hit stamps the repository, a miss falls back to otherunknown
when free entry is allowed, otherwise to the first catalog entry, and with an
empty catalog the no-repository error flag is set (which can only be reached
with free entry disallowed; with free entry allowed and otherunknown absent the
recursion diverges, see the counterexample). -/
theorem C8_amended (repository : String) (s : CState)
    (h : s.allowEmptyRepository = false
         ∨ s.listRepo.any (fun e => e.value = "otherunknown") = true) :
    ∃ s2, setRepositoryFuel 3 repository s = some s2
      ∧ (s.listRepo = [] → s2.noOneRepositoryError = true) := by
  cases hfound : s.listRepo.any (fun e => e.value = repository) with
  | true =>
    refine ⟨{s with currentRepository := repository, formRepoValue := repository},
      setRepositoryFuel_found 2 repository s hfound, ?_⟩
    intro hnil
    rw [hnil] at hfound
    simp at hfound
  | false =>
    cases hfree : s.allowEmptyRepository with
    | true =>
      have hother : s.listRepo.any (fun e => e.value = "otherunknown") = true := by
        rcases h with h1 | h2
        · rw [hfree] at h1; exact absurd h1 (by decide)
        · exact h2
      refine ⟨{s with currentRepository := "otherunknown", formRepoValue := "otherunknown"}, ?_, ?_⟩
      · have hstep : setRepositoryFuel 3 repository s = setRepositoryFuel 2 "otherunknown" s := by
          simp [setRepositoryFuel, hfound, hfree]
        rw [hstep]
        exact setRepositoryFuel_found 1 "otherunknown" s hother
      · intro hnil
        rw [hnil] at hother
        simp at hother
    | false =>
      cases hrepo : s.listRepo with
      | nil =>
        refine ⟨{s with noOneRepositoryError := true}, ?_, fun _ => rfl⟩
        simp [setRepositoryFuel, hfound, hfree, hrepo]
      | cons e rest =>
        have hhead : s.listRepo.any (fun x => x.value = e.value) = true := by
          rw [hrepo]
          simp
        refine ⟨{s with currentRepository := e.value, formRepoValue := e.value}, ?_, ?_⟩
        · have hstep : setRepositoryFuel 3 repository s = setRepositoryFuel 2 e.value s := by
            simp [setRepositoryFuel, hfound, hfree]
            rw [hrepo]
          rw [hstep]
          exact setRepositoryFuel_found 1 e.value s hhead
        · intro hnil
          simp [hrepo] at hnil

/-- C8 witness: on the empty catalog with free entry disallowed, setRepository
terminates and sets the no-repository error flag. -/
theorem C8_amended_witness :
    ∃ s2, setRepositoryFuel 3 "bdtfx" emptyCatalogNoFree = some s2
      ∧ (emptyCatalogNoFree.listRepo = [] → s2.noOneRepositoryError = true) :=
  C8_amended "bdtfx" emptyCatalogNoFree (Or.inl rfl)

/-- C9 counterexample: a tab-only input is whitespace-only, yet the classifier
dispatches the repository search with it and sets isLoading: the short-circuit
strips only U+0020 space characters (replace with a space pattern), so a tab does
not count as empty. -/
theorem C9_counterexample :
    (step sPlain (Ev.inputSet (JSVal.str "\t"))).2 = [Act.searchCall "bdtfx" "\t"]
    ∧ (step sPlain (Ev.inputSet (JSVal.str "\t"))).1.isLoading = true := by
  exact ⟨rfl, rfl⟩

/-- Helper: the subscribe handler applied to an empty result list dispatches no
search call and leaves isLoading false. -/
theorem onResults_nil_noSearch (s : CState) :
    ((onResults s []).2.all (fun a => !a.isSearchCall)) = true
    ∧ (onResults s []).1.isLoading = false := by
  simp [onResults, jsNotRefEqEmptyArrayLiteral, Act.isSearchCall]
  split <;> simp [Act.isSearchCall]

/-- C9 amended: for every textual input value that is empty or consists only of
space characters (the code strips only U+0020 spaces), the debounced
classification short-circuits to an empty result set: no search call is
dispatched in the step and isLoading stays false. Inputs containing other
whitespace such as a tab are instead sent to the search (see the
counterexample). -/
theorem C9_amended (s : CState) (t : String)
    (h1 : jsReplaceSpaces t = "") (h2 : s.isLoading = false) :
    ((step s (Ev.inputSet (JSVal.str t))).2.all (fun a => !a.isSearchCall)) = true
    ∧ (step s (Ev.inputSet (JSVal.str t))).1.isLoading = false := by
  simp only [step, stepInput, h1]
  split
  · exact ⟨rfl, h2⟩
  · split
    · exact ⟨rfl, h2⟩
    · split
      · simp only [if_true]
        exact onResults_nil_noSearch _
      · exact onResults_nil_noSearch _

/-- C9 witness: three spaces never reach the search and leave isLoading false. -/
theorem C9_amended_witness :
    ((step sPlain (Ev.inputSet (JSVal.str "   "))).2.all (fun a => !a.isSearchCall)) = true
    ∧ (step sPlain (Ev.inputSet (JSVal.str "   "))).1.isLoading = false :=
  C9_amended sPlain "   " (by decide) rfl

/-- C10: when the free-text commit condition holds but the input control holds a
selected candidate object rather than a text string, keyDownEnter emits no event
and leaves the whole component state unchanged. -/
theorem C10_objectInputKeyEnterNoOp (s : CState) (ref : Nat)
    (h1 : s.inputValue = JSVal.obj ref)
    (h2 : (s.allowEmptyRepository = true ∧ s.currentRepository = "otherunknown")
          ∨ (¬ s.currentRepository = "otherunknown" ∧ s.allowFreeValueIfNoResults = true
             ∧ s.dataFromRepo = [])) :
    step s Ev.keyEnter = (s, []) := by
  simp [step, keyDownEnter, h1, h2]

/-- C10 witness: on the sentinel repository with a selected object in the input,
the commit trigger is a complete no-op. -/
theorem C10_objectInputKeyEnterNoOp_witness :
    step sObjInput Ev.keyEnter = (sObjInput, []) :=
  C10_objectInputKeyEnterNoOp sObjInput 0 rfl (Or.inl ⟨rfl, rfl⟩)
